import Mathlib

/-!
Verification development for the widescreen-research orchestrator.

Shallow embedding of the Go sources:
 * `cmd/widescreen-research-mcp/server` — elicitation manager and tool handlers
 * `cmd/widescreen-research-mcp/orchestrator` — research orchestration,
   result collection, websets pipeline, subprocess MCP client, report assembly

Conventions of the embedding:
 * Go `map[string]interface{}` values are modelled by `GoVal` / `GoMap`
   (association lists with overwrite-on-set, matching Go map semantics).
 * Go `time.Time` / `time.Duration` values are modelled as integers (seconds
   or an abstract unit); every call of `time.Now()` in the source becomes an
   explicit `now` parameter.
 * Go `float64` values are modelled as exact rationals (`Rat`); the embedding
   never relies on rounding behaviour.
 * Operations that can panic (out-of-bounds indexing) return `Option`;
   operations returning Go `error` return `Except String`.
 * Nondeterministic Go map iteration order is modelled by an explicit
   iteration-order parameter constrained to be a permutation of the key set.
-/

/-- Model of a Go `interface{}` value as produced by `encoding/json` and the
answer maps: strings, JSON numbers (`float64`, modelled as `Rat`), Go `int`
values, booleans, arrays, objects, and `nil`. -/
inductive GoVal where
  | str (s : String)
  | num (q : Rat)
  | int (n : Int)
  | bool (b : Bool)
  | list (xs : List GoVal)
  | obj (fields : List (String × GoVal))
  | null

/-- Model of a Go `map[string]interface{}` as an association list with
overwrite-on-set. Keys are unique in any map built by `mapSet`. -/
abbrev GoMap := List (String × GoVal)

/-- Go map update `m[k] = v`: overwrite the existing binding in place, or
append a new binding. -/
def mapSet (m : GoMap) (k : String) (v : GoVal) : GoMap :=
  match m with
  | [] => [(k, v)]
  | (k', v') :: rest => if k' = k then (k, v) :: rest else (k', v') :: mapSet rest k v

/-- Go `for k, v := range answers { session.Answers[k] = v }`: merge the
incoming map into the stored map, overwriting on key collision. -/
def mapMerge (m incoming : GoMap) : GoMap :=
  incoming.foldl (fun acc kv => mapSet acc kv.1 kv.2) m

/-- Go `int(f)` conversion from `float64`: truncation toward zero, on the
rational model of `float64`. -/
def goIntOfNum (q : Rat) : Int :=
  if 0 ≤ q then q.floor else q.ceil

/- ### Elicitation manager (server/elicitation.go) -/

/-- Option of a select question (`schemas.ElicitationOption`). -/
structure ElicitationOption where
  value : String
  label : String
deriving DecidableEq

/-- Question record (`schemas.ElicitationQuestion`). -/
structure ElicitationQuestion where
  id : String
  question : String
  type : String
  required : Bool
  options : List ElicitationOption := []
  metadata : GoMap := []

/-- Per-session elicitation state (`server.ElicitationSession`). -/
structure ElicitationSession where
  id : String
  state : String
  answers : GoMap
  startTime : Nat
  lastUpdated : Nat

/-- The elicitation manager's session map (`server.ElicitationManager`). -/
structure ElicitationManager where
  sessions : List (String × ElicitationSession)

/-- Fresh manager (`NewElicitationManager`). -/
def ElicitationManager.empty : ElicitationManager := ⟨[]⟩

/-- Session lookup in the manager's map (`em.sessions[sessionID]`). -/
def ElicitationManager.findSession (em : ElicitationManager) (sessionID : String) :
    Option ElicitationSession :=
  em.sessions.lookup sessionID

/-- Store a session under its id (pointer mutation of the mapped session in
the source becomes an explicit map update here). -/
def ElicitationManager.storeSession (em : ElicitationManager) (sessionID : String)
    (s : ElicitationSession) : ElicitationManager :=
  ⟨(em.sessions.filter (fun kv => kv.1 ≠ sessionID)).cons (sessionID, s)⟩

/-- CreateSession: allocate a session at state `initial` with empty answers.
The `uuid.New().String()` call is modelled by the `sessionID` parameter, and
`time.Now()` by `now`. -/
def ElicitationManager.createSession (em : ElicitationManager) (sessionID : String)
    (now : Nat) : ElicitationManager × String :=
  (em.storeSession sessionID
    { id := sessionID, state := "initial", answers := [],
      startTime := now, lastUpdated := now }, sessionID)

/-- GetState: map lookup, `nil` when absent. -/
def ElicitationManager.getState (em : ElicitationManager) (sessionID : String) :
    Option ElicitationSession :=
  em.findSession sessionID

/-- GetInitialQuestions: topic, researcher count, depth. -/
def getInitialQuestions : List ElicitationQuestion :=
  [ { id := "research_topic",
      question := "What would you like to perform research on?",
      type := "text", required := true,
      metadata := [("placeholder", .str "e.g., AI safety companies, renewable energy startups, etc."),
                   ("multiline", .bool true)] },
    { id := "researcher_count",
      question := "How many researchers do you want to provision?",
      type := "number", required := true,
      metadata := [("min", .int 1), ("max", .int 100), ("default", .int 10)] },
    { id := "research_depth",
      question := "What level of research depth do you need?",
      type := "select", required := true,
      options := [⟨"basic", "Basic - Quick overview"⟩,
                  ⟨"standard", "Standard - Comprehensive analysis"⟩,
                  ⟨"deep", "Deep - Exhaustive investigation"⟩] } ]

/-- getWorkflowQuestions: optional workflow templates, required output format. -/
def getWorkflowQuestions : List ElicitationQuestion :=
  [ { id := "workflow_templates",
      question := "Do you have any pre-orchestrated workflows you want the researchers to use? If yes, paste them below:",
      type := "text", required := false,
      metadata := [("multiline", .bool true),
                   ("placeholder", .str "Paste workflow YAML or JSON here (optional)")] },
    { id := "output_format",
      question := "What format would you like the research results in?",
      type := "select", required := true,
      options := [⟨"structured_json", "Structured JSON"⟩,
                  ⟨"markdown_report", "Markdown Report"⟩,
                  ⟨"executive_summary", "Executive Summary"⟩,
                  ⟨"raw_data", "Raw Data"⟩] } ]

/-- getAdvancedQuestions: timeout, priority, plus a conditional
`specific_sources` question when a non-empty string topic answer exists. -/
def getAdvancedQuestions (session : ElicitationSession) : List ElicitationQuestion :=
  let base : List ElicitationQuestion :=
    [ { id := "timeout_minutes",
        question := "Maximum time for research completion (in minutes)?",
        type := "number", required := true,
        metadata := [("min", .int 5), ("max", .int 1440), ("default", .int 60)] },
      { id := "priority_level",
        question := "Research priority level?",
        type := "select", required := true,
        options := [⟨"low", "Low - Cost-optimized"⟩,
                    ⟨"normal", "Normal - Balanced"⟩,
                    ⟨"high", "High - Performance-optimized"⟩] } ]
  match session.answers.lookup "research_topic" with
  | some (.str topic) =>
      if topic ≠ "" then
        base ++ [ { id := "specific_sources",
                    question := "Any specific sources or domains to focus on for '" ++ topic ++ "'?",
                    type := "text", required := false,
                    metadata := [("placeholder", .str "e.g., specific websites, databases, or domains")] } ]
      else base
  | _ => base

/-- ProcessAnswers: merge the submitted answers into the session (this
happens before the state switch, even for sessions already `complete`),
bump `lastUpdated`, then advance one state. Unknown session ids return
`(nil, false)` with the manager unchanged — the source has no error return. -/
def ElicitationManager.processAnswers (em : ElicitationManager) (sessionID : String)
    (answers : GoMap) (now : Nat) :
    ElicitationManager × Option (List ElicitationQuestion) × Bool :=
  match em.findSession sessionID with
  | none => (em, none, false)
  | some session =>
    let session := { session with answers := mapMerge session.answers answers,
                                  lastUpdated := now }
    match session.state with
    | "initial" =>
        (em.storeSession sessionID { session with state := "workflow" },
         some getWorkflowQuestions, false)
    | "workflow" =>
        (em.storeSession sessionID { session with state := "advanced" },
         some (getAdvancedQuestions session), false)
    | "advanced" =>
        (em.storeSession sessionID { session with state := "complete" },
         none, true)
    | _ =>
        (em.storeSession sessionID session, none, true)

/-- Research configuration (`schemas.ResearchConfig`). -/
structure ResearchConfig where
  sessionID : String
  topic : String
  researcherCount : Int
  researchDepth : String
  outputFormat : String
  timeoutMinutes : Int
  priorityLevel : String
  workflowTemplates : String
  specificSources : String
  createdAt : Nat
deriving DecidableEq

/-- getStringAnswer: type-asserted string lookup with default. -/
def getStringAnswer (session : ElicitationSession) (key defaultValue : String) : String :=
  match session.answers.lookup key with
  | some (.str v) => v
  | _ => defaultValue

/-- getIntAnswer: accepts a JSON number (`float64`, truncated) or a Go `int`,
with default otherwise. -/
def getIntAnswer (session : ElicitationSession) (key : String) (defaultValue : Int) : Int :=
  match session.answers.lookup key with
  | some (.num q) => goIntOfNum q
  | some (.int n) => n
  | _ => defaultValue

/-- GetResearchConfig: `nil` unless the session exists and is `complete`;
otherwise the config assembled from the answer map with defaults. -/
def ElicitationManager.getResearchConfig (em : ElicitationManager) (sessionID : String) :
    Option ResearchConfig :=
  match em.findSession sessionID with
  | none => none
  | some session =>
    if session.state ≠ "complete" then none
    else some
      { sessionID := sessionID
        topic := getStringAnswer session "research_topic" ""
        researcherCount := getIntAnswer session "researcher_count" 10
        researchDepth := getStringAnswer session "research_depth" "standard"
        outputFormat := getStringAnswer session "output_format" "structured_json"
        timeoutMinutes := getIntAnswer session "timeout_minutes" 60
        priorityLevel := getStringAnswer session "priority_level" "normal"
        workflowTemplates := getStringAnswer session "workflow_templates" ""
        specificSources := getStringAnswer session "specific_sources" ""
        createdAt := session.startTime }

/- ### Elicitation tool handler (server/server.go, handleElicitation) -/

/-- Tool input (`schemas.WidescreenResearchInput`), restricted to the fields
the elicitation handler reads. -/
structure WidescreenResearchInput where
  operation : String
  sessionID : String
  elicitationAnswers : GoMap

/-- Elicitation response (`schemas.ElicitationResponse`). -/
structure ElicitationResponse where
  type : String
  questions : List ElicitationQuestion
  sessionID : String
  message : String
  config : Option ResearchConfig

/-- handleElicitation: unknown session id silently creates a fresh session and
returns the initial questions; otherwise process answers and either return the
next questions or the completed config. The handler's `error` result is never
populated on these paths. The fresh uuid is the `newID` parameter. -/
def handleElicitation (em : ElicitationManager) (input : WidescreenResearchInput)
    (newID : String) (now : Nat) :
    ElicitationManager × Except String ElicitationResponse :=
  match em.getState input.sessionID with
  | none =>
      let created := em.createSession newID now
      (created.1, .ok { type := "elicitation", questions := getInitialQuestions,
                        sessionID := created.2, message := "", config := none })
  | some _ =>
      let step := em.processAnswers input.sessionID input.elicitationAnswers now
      let em' := step.1
      if step.2.2 = false then
        (em', .ok { type := "elicitation", questions := (step.2.1).getD [],
                    sessionID := input.sessionID, message := "", config := none })
      else
        (em', .ok { type := "ready", questions := [],
                    sessionID := input.sessionID,
                    message := "Elicitation complete. Ready to start research.",
                    config := em'.getResearchConfig input.sessionID })

/- ### Theorems: elicitation state machine -/

/-- C2: starting from a session created at `initial`, any sequence of answer
maps makes `ProcessAnswers` report `complete = false` on the first two calls
and `complete = true` on exactly the third, and `GetResearchConfig` is `nil`
before the third call and non-nil after; in general its result is non-nil
exactly when the stored session state is `complete`. -/
theorem elicitation_completes_in_three_calls (sid : String) (a1 a2 a3 : GoMap)
    (t0 t1 t2 t3 : Nat) :
    (((ElicitationManager.empty.createSession sid t0).1.processAnswers sid a1 t1).2.2 = false) ∧
    ((((ElicitationManager.empty.createSession sid t0).1.processAnswers sid a1 t1).1.processAnswers sid a2 t2).2.2 = false) ∧
    (((((ElicitationManager.empty.createSession sid t0).1.processAnswers sid a1 t1).1.processAnswers sid a2 t2).1.processAnswers sid a3 t3).2.2 = true) ∧
    ((ElicitationManager.empty.createSession sid t0).1.getResearchConfig sid = none) ∧
    ((((ElicitationManager.empty.createSession sid t0).1.processAnswers sid a1 t1).1).getResearchConfig sid = none) ∧
    (((((ElicitationManager.empty.createSession sid t0).1.processAnswers sid a1 t1).1.processAnswers sid a2 t2).1).getResearchConfig sid = none) ∧
    ((((((ElicitationManager.empty.createSession sid t0).1.processAnswers sid a1 t1).1.processAnswers sid a2 t2).1.processAnswers sid a3 t3).1).getResearchConfig sid).isSome = true ∧
    (∀ em : ElicitationManager,
      (em.getResearchConfig sid).isSome =
        (((em.findSession sid).map (fun s => s.state)).getD "" == "complete")) := by
  refine ⟨?_, ?_, ?_, ?_, ?_, ?_, ?_, ?_⟩
  · simp [ElicitationManager.createSession, ElicitationManager.storeSession,
          ElicitationManager.processAnswers, ElicitationManager.findSession,
          List.lookup]
  · simp [ElicitationManager.createSession, ElicitationManager.storeSession,
          ElicitationManager.processAnswers, ElicitationManager.findSession,
          List.lookup]
  · simp [ElicitationManager.createSession, ElicitationManager.storeSession,
          ElicitationManager.processAnswers, ElicitationManager.findSession,
          List.lookup]
  · simp [ElicitationManager.createSession, ElicitationManager.storeSession,
          ElicitationManager.getResearchConfig, ElicitationManager.findSession,
          List.lookup]
  · simp [ElicitationManager.createSession, ElicitationManager.storeSession,
          ElicitationManager.processAnswers, ElicitationManager.getResearchConfig,
          ElicitationManager.findSession, List.lookup]
  · simp [ElicitationManager.createSession, ElicitationManager.storeSession,
          ElicitationManager.processAnswers, ElicitationManager.getResearchConfig,
          ElicitationManager.findSession, List.lookup]
  · simp [ElicitationManager.createSession, ElicitationManager.storeSession,
          ElicitationManager.processAnswers, ElicitationManager.getResearchConfig,
          ElicitationManager.findSession, List.lookup]
  · intro em
    unfold ElicitationManager.getResearchConfig
    cases h : em.findSession sid with
    | none => simp [h]
    | some s =>
        by_cases hs : s.state = "complete" <;> simp [h, hs]

/-- C6 counterexample: with an unknown session id, `ProcessAnswers` returns
`(nil, false)` and leaves the manager unchanged — there is no error value in
its signature — and `handleElicitation` returns a successful `elicitation`
response with a freshly created session instead of a "no such session"
error. -/
theorem unknown_session_counterexample :
    ElicitationManager.empty.processAnswers "missing" [] 0 =
      (ElicitationManager.empty, none, false) ∧
    handleElicitation ElicitationManager.empty
        { operation := "", sessionID := "missing", elicitationAnswers := [] }
        "fresh-id" 0 =
      ((ElicitationManager.empty.createSession "fresh-id" 0).1,
       .ok { type := "elicitation", questions := getInitialQuestions,
             sessionID := "fresh-id", message := "", config := none }) :=
  ⟨rfl, rfl⟩

/-- C6 amended: an unknown session id on a non-initial elicitation call does
not produce a "no such session" error. `ProcessAnswers` leaves the manager
unchanged and returns no questions with `complete = false`, and
`handleElicitation` silently creates a fresh session and returns a successful
`elicitation` response carrying the initial question set and the new session
id. -/
theorem unknown_session_silently_restarts (em : ElicitationManager) (sid : String)
    (answers : GoMap) (now : Nat) (newID op : String)
    (h : em.findSession sid = none) :
    em.processAnswers sid answers now = (em, none, false) ∧
    handleElicitation em { operation := op, sessionID := sid, elicitationAnswers := answers }
        newID now =
      ((em.createSession newID now).1,
       .ok { type := "elicitation", questions := getInitialQuestions,
             sessionID := newID, message := "", config := none }) := by
  constructor
  · unfold ElicitationManager.processAnswers
    rw [h]
  · unfold handleElicitation ElicitationManager.getState
    rw [h]
    rfl

/-- C6 amended witness at a concrete unknown session id. -/
theorem unknown_session_silently_restarts_witness :
    ElicitationManager.empty.processAnswers "nope" [] 3 =
      (ElicitationManager.empty, none, false) ∧
    handleElicitation ElicitationManager.empty
        { operation := "start", sessionID := "nope", elicitationAnswers := [] } "id-1" 3 =
      ((ElicitationManager.empty.createSession "id-1" 3).1,
       .ok { type := "elicitation", questions := getInitialQuestions,
             sessionID := "id-1", message := "", config := none }) :=
  unknown_session_silently_restarts ElicitationManager.empty "nope" [] 3 "id-1" "start" rfl

/-- Concrete completed elicitation session used to analyse `ProcessAnswers`
behaviour after completion. -/
def completedSession : ElicitationSession :=
  { id := "s7", state := "complete",
    answers := [("research_topic", .str "alpha")], startTime := 0, lastUpdated := 0 }

/-- Manager holding only `completedSession`. -/
def managerAtComplete : ElicitationManager := ⟨[("s7", completedSession)]⟩

/-- C7 counterexample: a `ProcessAnswers` call on a `complete` session does
report `complete = true`, but it is not a no-op: the submitted answers are
merged into the session's answer map, so `GetResearchConfig` changes (here
the topic flips from "alpha" to "beta"). -/
theorem process_after_complete_counterexample :
    ((managerAtComplete.processAnswers "s7" [("research_topic", .str "beta")] 5).2.2 = true) ∧
    ((managerAtComplete.getResearchConfig "s7").map (fun c => c.topic) = some "alpha") ∧
    (((managerAtComplete.processAnswers "s7" [("research_topic", .str "beta")] 5).1.getResearchConfig
        "s7").map (fun c => c.topic) = some "beta") := by
  refine ⟨rfl, rfl, rfl⟩

/-- C7 amended: on a session whose state is `complete`, `ProcessAnswers`
returns no questions and `complete = true` and the state stays `complete`,
but it merges the submitted answers into the stored answer map and bumps
`lastUpdated`; it is a no-op only when the merged answers leave the map
unchanged. -/
theorem process_after_complete_merges (em : ElicitationManager) (sid : String)
    (s : ElicitationSession) (answers : GoMap) (now : Nat)
    (hfind : em.findSession sid = some s) (hstate : s.state = "complete") :
    em.processAnswers sid answers now =
      (em.storeSession sid
        { s with answers := mapMerge s.answers answers, lastUpdated := now },
       none, true) := by
  unfold ElicitationManager.processAnswers
  rw [hfind]
  simp [hstate]

/-- C7 amended witness at the concrete completed session. -/
theorem process_after_complete_merges_witness :
    managerAtComplete.processAnswers "s7" [("research_topic", .str "beta")] 5 =
      (managerAtComplete.storeSession "s7"
        { completedSession with
            answers := mapMerge completedSession.answers [("research_topic", .str "beta")],
            lastUpdated := 5 },
       none, true) :=
  process_after_complete_merges managerAtComplete "s7" completedSession
    [("research_topic", .str "beta")] 5 rfl rfl

/- ### Orchestrator: completion wait and result collection
     (orchestrator.go waitForCompletion, helpers collectResults) -/

/-- Result message published by a worker (`schemas.DroneResult`). Times are
seconds; `processingTime` is an abstract duration unit. -/
structure DroneResult where
  droneID : String
  status : String
  data : GoMap
  error : String := ""
  completedAt : Nat := 0
  processingTime : Nat := 0

/-- Poll interval of `waitForCompletion`: the source creates
`time.NewTicker(5 * time.Second)`. -/
def pollIntervalSec : Nat := 5

/-- Outcome of the completion wait. -/
inductive WaitStatus where
  | completed
  | timeout
deriving DecidableEq

/-- Body of the `waitForCompletion` polling loop. Tick `k` fires at elapsed
time `5*(k+1)` seconds; `counts k` is `len(session.Results)` observed at tick
`k`. At each tick the source first checks `completedCount >= totalCount`,
then `time.Now().After(deadline)`. `remaining` is the number of ticks whose
time does not yet exceed the deadline, so the `remaining = 0` tick is the
first one where the source's deadline check fires (after its completion
check, exactly as in the source). -/
def waitLoop (counts : Nat → Nat) (totalCount : Int) : Nat → Nat → WaitStatus
  | k, 0 => if totalCount ≤ (counts k : Int) then .completed else .timeout
  | k, remaining + 1 =>
      if totalCount ≤ (counts k : Int) then .completed
      else waitLoop counts totalCount (k + 1) remaining

/-- waitForCompletion: poll every `pollIntervalSec` seconds until the
collected-result count reaches `totalCount` (completed) or the elapsed time
exceeds `deadlineSec = config.TimeoutMinutes * 60` (timeout). The tick at
which the deadline check `5*(k+1) > deadlineSec` first fires is
`k = deadlineSec / 5`, so the loop runs with that many remaining ticks. -/
def waitForCompletion (counts : Nat → Nat) (totalCount : Int) (deadlineSec : Int) :
    WaitStatus :=
  waitLoop counts totalCount 0 (deadlineSec.toNat / pollIntervalSec)

/-- Body of the `collectResults` loop: each result received from the queue's
result channel is appended to `session.Results`, unconditionally — no
deduplication by drone id. -/
def collectResults (current : List DroneResult) : List DroneResult → List DroneResult
  | [] => current
  | r :: rest => collectResults (current ++ [r]) rest

/-- Helper: `waitLoop` declares completion exactly when some polled tick in
its window observes a count reaching the total. -/
theorem waitLoop_completed_iff (counts : Nat → Nat) (total : Int) :
    ∀ r k, waitLoop counts total k r = .completed ↔
      ∃ j, k ≤ j ∧ j ≤ k + r ∧ total ≤ (counts j : Int) := by
  intro r
  induction r with
  | zero =>
      intro k
      unfold waitLoop
      constructor
      · intro h
        by_cases hc : total ≤ (counts k : Int)
        · exact ⟨k, le_refl k, by omega, hc⟩
        · simp [hc] at h
      · rintro ⟨j, hkj, hjk, hc⟩
        have : j = k := by omega
        subst this
        simp [hc]
  | succ r ih =>
      intro k
      unfold waitLoop
      by_cases hc : total ≤ (counts k : Int)
      · simp only [hc, if_true]
        constructor
        · intro _
          exact ⟨k, le_refl k, by omega, hc⟩
        · intro _
          trivial
      · simp only [hc, if_false]
        rw [ih (k + 1)]
        constructor
        · rintro ⟨j, hkj, hjr, hcj⟩
          exact ⟨j, by omega, by omega, hcj⟩
        · rintro ⟨j, hkj, hjr, hcj⟩
          refine ⟨j, ?_, by omega, hcj⟩
          rcases Nat.eq_or_lt_of_le hkj with h | h
          · subst h
            exact absurd hcj hc
          · omega

/-- Helper: the collect loop is exactly list append. -/
theorem collectResults_eq_append (msgs : List DroneResult) :
    ∀ current, collectResults current msgs = current ++ msgs := by
  induction msgs with
  | nil => intro current; simp [collectResults]
  | cons r rest ih =>
      intro current
      unfold collectResults
      rw [ih (current ++ [r])]
      simp

/-- C4: the completion wait polls every 5 seconds; it declares the session
complete exactly when some poll within the timeout window observes a
collected-result count at or above the configured researcher count; and the
collector appends every message received on the result channel — including
duplicate messages with the same worker id — to the session's result list,
so each one counts toward completion. -/
theorem wait_and_collect_semantics :
    pollIntervalSec = 5 ∧
    (∀ (counts : Nat → Nat) (total deadlineSec : Int),
      waitForCompletion counts total deadlineSec = .completed ↔
        ∃ j, j ≤ deadlineSec.toNat / pollIntervalSec ∧ total ≤ (counts j : Int)) ∧
    (∀ (current : List DroneResult) (msgs : List DroneResult),
      collectResults current msgs = current ++ msgs) ∧
    (∀ (current : List DroneResult) (r : DroneResult),
      collectResults current [r, r] = current ++ [r, r] ∧
      (collectResults current [r, r]).length = current.length + 2) := by
  refine ⟨rfl, ?_, ?_, ?_⟩
  · intro counts total deadlineSec
    unfold waitForCompletion
    rw [waitLoop_completed_iff]
    constructor
    · rintro ⟨j, _, hj, hc⟩
      exact ⟨j, by omega, hc⟩
    · rintro ⟨j, hj, hc⟩
      exact ⟨j, Nat.zero_le j, by omega, hc⟩
  · intro current msgs
    exact collectResults_eq_append msgs current
  · intro current r
    refine ⟨collectResults_eq_append [r, r] current, ?_⟩
    rw [collectResults_eq_append [r, r] current]
    simp

/- ### Orchestrator: session lifecycle (orchestrator.go OrchestrateResearch,
     helpers cleanupSession, calculateMetrics) -/

/-- Aggregated session metrics (`schemas.ResearchMetrics`). The duration is
kept in hours as an exact rational (the source stores a `time.Duration` and
converts with `.Hours()` for the cost estimate). -/
structure ResearchMetrics where
  dronesProvisioned : Nat
  dronesCompleted : Nat
  dronesFailed : Nat
  totalDurationHours : Rat
  dataPointsCollected : Nat
  costEstimate : Rat

/-- Loop body of `calculateMetrics`: a `completed` result bumps the completed
count and adds its data-point count; anything else bumps the failed count. -/
def metricsStep (ms : ResearchMetrics) (r : DroneResult) : ResearchMetrics :=
  if r.status = "completed" then
    { ms with dronesCompleted := ms.dronesCompleted + 1,
              dataPointsCollected := ms.dataPointsCollected + r.data.length }
  else
    { ms with dronesFailed := ms.dronesFailed + 1 }

/-- calculateMetrics: provisioned count from the drone map, success/failure
counts and data points from the results, and the Cloud Run cost estimate
`cpuHours * 0.0000024 * 1000`. -/
def calculateMetrics (drones : List String) (results : List DroneResult)
    (elapsedHours : Rat) : ResearchMetrics :=
  let base : ResearchMetrics :=
    { dronesProvisioned := drones.length, dronesCompleted := 0, dronesFailed := 0,
      totalDurationHours := elapsedHours, dataPointsCollected := 0, costEstimate := 0 }
  let ms := results.foldl metricsStep base
  { ms with costEstimate :=
      (ms.dronesProvisioned : Rat) * elapsedHours * ((24 : Rat) / 10000000) * 1000 }

/-- Side effects of `cleanupSession`: delete each drone service once, delete
the session's pub/sub topic, close the queue, drop the session from the
live-sessions map. -/
structure CleanupActions where
  deleteCalls : List String
  topicDeleted : String
  queueClosed : Bool
  sessionRemoved : Bool
deriving DecidableEq

/-- cleanupSession: one `deleteDroneService` call per drone in the session's
drone map, then the topic delete, queue close, and session-map removal. -/
def cleanupSession (sessionID : String) (drones : List String) : CleanupActions :=
  { deleteCalls := drones,
    topicDeleted := "research-results-" ++ sessionID,
    queueClosed := true,
    sessionRemoved := true }

/-- Errors produced on the failure paths of `OrchestrateResearch`. Each
constructor corresponds to one `fmt.Errorf` wrap in the source:
`provisionFailed` to "failed to provision drones: provisioning failed with
%d errors: %v", `coordinateFailed` to "failed to coordinate research: %w",
`timeout` to "research failed: research timeout after %v", and
`reportFailed` to "failed to generate report: %w". -/
inductive OrchError where
  | provisionFailed (errorCount : Nat) (first : String)
  | coordinateFailed (msg : String)
  | timeout (timeoutMinutes : Int)
  | reportFailed (msg : String)
deriving DecidableEq

/-- Successful `schemas.ResearchResult` payload returned by
`OrchestrateResearch` (report data abstracted to the stored report id). -/
structure OrchPayload where
  sessionID : String
  status : String
  reportURL : String
  reportID : String
  metrics : ResearchMetrics

/-- Environment of one `OrchestrateResearch` run: outcomes of the external
collaborators. `provisioned` holds the drone ids whose `deployDrone`
succeeded (the session's drone map); `provisionErrors` the deploy errors;
`counts k` is the collected-result count observed by `waitForCompletion` at
tick `k`; `finalResults` the collected results at return time;
`reportResult` the outcome of report generation. -/
structure OrchEnv where
  provisioned : List String
  provisionErrors : List String
  coordinateResult : Except String Unit
  counts : Nat → Nat
  finalResults : List DroneResult
  elapsedHours : Rat
  reportResult : Except String String

/-- Observable outcome of `OrchestrateResearch`: the returned value, the
session's status field at return, and the cleanup performed (`none` when
`cleanupSession` was never invoked). -/
structure OrchOutcome where
  result : Except OrchError OrchPayload
  sessionStatus : String
  cleanup : Option CleanupActions

/-- OrchestrateResearch control flow. Provisioning errors fail the run with
status `failed`; a coordination error likewise; a completion-wait timeout
sets status `failed` and returns the wrapped timeout error; a report error
sets `failed_report_generation`. Only the fully successful path reaches the
`go o.cleanupSession(ctx, session)` call — no failure path invokes cleanup.
The concurrent `monitorSession` goroutine (health probe) is outside this
model. -/
def orchestrateResearch (env : OrchEnv) (config : ResearchConfig) : OrchOutcome :=
  if env.provisionErrors.length > 0 then
    { result := .error (.provisionFailed env.provisionErrors.length
        (env.provisionErrors.headD "")),
      sessionStatus := "failed", cleanup := none }
  else
    match env.coordinateResult with
    | .error e =>
        { result := .error (.coordinateFailed e),
          sessionStatus := "failed", cleanup := none }
    | .ok _ =>
        match waitForCompletion env.counts config.researcherCount
            (config.timeoutMinutes * 60) with
        | .timeout =>
            { result := .error (.timeout config.timeoutMinutes),
              sessionStatus := "failed", cleanup := none }
        | .completed =>
            match env.reportResult with
            | .error e =>
                { result := .error (.reportFailed e),
                  sessionStatus := "failed_report_generation", cleanup := none }
            | .ok reportID =>
                { result := .ok
                    { sessionID := config.sessionID, status := "completed",
                      reportURL := "reports/report_" ++ config.sessionID ++ ".md",
                      reportID := reportID,
                      metrics := calculateMetrics env.provisioned env.finalResults
                        env.elapsedHours },
                  sessionStatus := "completed",
                  cleanup := some (cleanupSession config.sessionID env.provisioned) }

/-- Run with one successfully provisioned drone that never reports a result,
under a 1-minute session timeout. -/
def timedOutEnv : OrchEnv :=
  { provisioned := ["drone-sess1-0"], provisionErrors := [],
    coordinateResult := .ok (), counts := fun _ => 0,
    finalResults := [], elapsedHours := 1, reportResult := .ok "report-1" }

/-- Configuration of the timed-out run: one researcher, 1-minute timeout. -/
def timedOutConfig : ResearchConfig :=
  { sessionID := "sess1", topic := "t", researcherCount := 1,
    researchDepth := "basic", outputFormat := "markdown_report",
    timeoutMinutes := 1, priorityLevel := "normal",
    workflowTemplates := "", specificSources := "", createdAt := 0 }

/-- C1: evaluation at the failing input. One drone was successfully
provisioned, the session times out, and `OrchestrateResearch` returns the
timeout error without ever invoking `cleanupSession` — `deleteDroneService`
is called zero times for the provisioned drone, not exactly once as the
cleanup invariant demands. -/
theorem cleanup_skipped_on_timeout :
    timedOutEnv.provisioned = ["drone-sess1-0"] ∧
    (orchestrateResearch timedOutEnv timedOutConfig).result = .error (.timeout 1) ∧
    (orchestrateResearch timedOutEnv timedOutConfig).cleanup = none ∧
    (((orchestrateResearch timedOutEnv timedOutConfig).cleanup.map
        (fun c => c.deleteCalls)).getD []).count "drone-sess1-0" = 0 :=
  ⟨rfl, rfl, rfl, rfl⟩

/-- Run with two provisioned drones of which only one ever reports, under a
1-minute timeout: the wait times out. -/
def partialEnv : OrchEnv :=
  { provisioned := ["drone-sess3-0", "drone-sess3-1"], provisionErrors := [],
    coordinateResult := .ok (), counts := fun _ => 1,
    finalResults := [{ droneID := "drone-sess3-0", status := "completed", data := [] }],
    elapsedHours := 1, reportResult := .ok "report-3" }

/-- Configuration of the partially-collected run. -/
def partialConfig : ResearchConfig :=
  { sessionID := "sess3", topic := "t3", researcherCount := 2,
    researchDepth := "basic", outputFormat := "markdown_report",
    timeoutMinutes := 1, priorityLevel := "normal",
    workflowTemplates := "", specificSources := "", createdAt := 0 }

/-- C3 counterexample: a session that exceeds its timeout with fewer results
than researchers does not return any `ResearchResult`-shaped payload — the
call returns `nil` plus an error (here the wrapped timeout error), so the
claimed payload with `status ∈ {failed, timeout, failed_report_generation}`
and accumulated metrics is never produced. -/
theorem timeout_returns_no_payload_counterexample :
    (orchestrateResearch partialEnv partialConfig).result = .error (.timeout 1) ∧
    (orchestrateResearch partialEnv partialConfig).result.toOption = none :=
  ⟨rfl, rfl⟩

/-- C3 amended: when the wall-clock elapsed time exceeds
`config.timeout_minutes` before the collected-result count reaches the
researcher count, `OrchestrateResearch` returns an error (a `nil` payload)
wrapping the timeout, and the session's in-memory status is set to `failed`;
no `ResearchResult` payload and no metrics are returned on this path. A
payload is produced only on the fully successful path, with status
`completed`. -/
theorem timeout_returns_error_and_failed_status (env : OrchEnv) (config : ResearchConfig)
    (hprov : env.provisionErrors = []) (hcoord : env.coordinateResult = .ok ())
    (hwait : waitForCompletion env.counts config.researcherCount
      (config.timeoutMinutes * 60) = .timeout) :
    (orchestrateResearch env config).result = .error (.timeout config.timeoutMinutes) ∧
    (orchestrateResearch env config).result.toOption = none ∧
    (orchestrateResearch env config).sessionStatus = "failed" := by
  unfold orchestrateResearch
  rw [hprov, hcoord, hwait]
  exact ⟨rfl, rfl, rfl⟩

/-- C3 amended witness at the concrete timed-out run. -/
theorem timeout_returns_error_and_failed_status_witness :
    (orchestrateResearch partialEnv partialConfig).result = .error (.timeout 1) ∧
    (orchestrateResearch partialEnv partialConfig).result.toOption = none ∧
    (orchestrateResearch partialEnv partialConfig).sessionStatus = "failed" :=
  timeout_returns_error_and_failed_status partialEnv partialConfig rfl rfl rfl

/- ### Subprocess MCP client (orchestrator/mcp_client.go) -/

/-- Helper of the source's substring search (`containsHelper`): false when
the remaining text is shorter than the needle, true on a prefix match, else
recurse on the tail. The empty-text case folds the source's two boundary
checks: with empty text the prefix check succeeds exactly when the needle is
empty, and the length check fails otherwise. -/
def containsHelper (substr : List Char) : List Char → Bool
  | [] => substr.isEmpty
  | c :: rest =>
      if (c :: rest).length < substr.length then false
      else if (c :: rest).take substr.length == substr then true
      else containsHelper substr rest

/-- The source's `contains(s, substr)`: a prefix match at the start, or a
recursive search from the second character when the text is strictly
longer than the needle. -/
def goContains (s substr : String) : Bool :=
  let cs := s.toList
  let sub := substr.toList
  (decide (sub.length ≤ cs.length) && (cs.take sub.length == sub)) ||
  (decide (sub.length < cs.length) && containsHelper sub cs.tail)

/-- isTransportError: substring heuristic over the error message —
"transport", "connection", "pipe", or "EOF". -/
def isTransportError (errMsg : String) : Bool :=
  goContains errMsg "transport" ||
  goContains errMsg "connection" ||
  goContains errMsg "pipe" ||
  goContains errMsg "EOF"

/-- Tool-call response (`sdk.CallToolResult`): the error flag and the content
list, where `some text` models a `*sdk.TextContent` and `none` any other
content kind. -/
structure ToolCallRes where
  isError : Bool
  content : List (Option String)

/-- Environment of one `StdIOWebsetsClient.Call` on an established session:
the result of the first `session.CallTool`, the outcome of the single
`Connect` attempted after a transport-class failure, and the result of the
retried `CallTool`. -/
structure CallEnv where
  firstCall : Except String ToolCallRes
  connectResult : Except String Unit
  retryCall : Except String ToolCallRes

/-- Observable reconnection behaviour of one `Call`. -/
structure CallTrace where
  sessionClosed : Bool
  reconnectAttempts : Nat
  retryAttempts : Nat
deriving DecidableEq

/-- Response handling shared by the first and the retried call: an
`isError` response surfaces its first text content as "tool error: …" (or a
generic message when no text content leads), otherwise the first text
content (or the empty string) is returned. -/
def handleToolRes (res : ToolCallRes) : Except String String :=
  if res.isError then
    match res.content with
    | some text :: _ => .error ("tool error: " ++ text)
    | _ => .error "tool call returned isError=true"
  else
    match res.content with
    | [] => .ok ""
    | some text :: _ => .ok text
    | none :: _ => .ok ""

/-- Call: on a transport-class first failure, close the session, attempt
exactly one reconnect and — when it succeeds — exactly one retry, whose
error (wrapped "tools/call failed after reconnect") surfaces with no further
reconnect; a failed reconnect surfaces as "reconnect failed"; a
non-transport first failure surfaces as "tools/call failed" with no
reconnect at all. -/
def clientCall (env : CallEnv) : Except String String × CallTrace :=
  match env.firstCall with
  | .ok res => (handleToolRes res, ⟨false, 0, 0⟩)
  | .error e =>
      if isTransportError e then
        match env.connectResult with
        | .error ce => (.error ("reconnect failed: " ++ ce), ⟨true, 1, 0⟩)
        | .ok _ =>
            match env.retryCall with
            | .error e2 =>
                (.error ("tools/call failed after reconnect: " ++ e2), ⟨true, 1, 1⟩)
            | .ok res => (handleToolRes res, ⟨true, 1, 1⟩)
      else
        (.error ("tools/call failed: " ++ e), ⟨false, 0, 0⟩)

/-- C5: a transport-class first failure (substring match on "transport",
"connection", "pipe" or "EOF") closes the session and performs exactly one
reconnect and, once it succeeds, exactly one retry; a second failure
surfaces as the wrapped retry error with no further reconnect; and a first
failure not matching the heuristic surfaces with no reconnect at all. -/
theorem client_call_reconnect_semantics (env : CallEnv) (e : String)
    (hfirst : env.firstCall = .error e) :
    (isTransportError e = true → env.connectResult = .ok () →
      (clientCall env).2 = ⟨true, 1, 1⟩ ∧
      (∀ e2, env.retryCall = .error e2 →
        (clientCall env).1 = .error ("tools/call failed after reconnect: " ++ e2))) ∧
    (isTransportError e = false →
      clientCall env = (.error ("tools/call failed: " ++ e), ⟨false, 0, 0⟩)) := by
  constructor
  · intro htrans hconn
    constructor
    · unfold clientCall
      rw [hfirst]
      simp only [htrans, hconn, if_true]
      cases env.retryCall <;> rfl
    · intro e2 hretry
      unfold clientCall
      rw [hfirst]
      simp only [htrans, hconn, hretry, if_true]
  · intro htrans
    unfold clientCall
    rw [hfirst]
    simp [htrans]

/-- Call environment in which the first call dies with a connection error,
the reconnect succeeds, and the retried call dies with an EOF error. -/
def doubleTransportEnv : CallEnv :=
  { firstCall := .error "stdio transport closed",
    connectResult := .ok (),
    retryCall := .error "unexpected EOF" }

/-- C5 witness: at the concrete double-transport-failure environment, the
call closes the session, reconnects once, retries once, and surfaces the
retry error. -/
theorem client_call_reconnect_semantics_witness :
    (clientCall doubleTransportEnv).2 = ⟨true, 1, 1⟩ ∧
    (clientCall doubleTransportEnv).1 =
      .error ("tools/call failed after reconnect: " ++ "unexpected EOF") :=
  have h := (client_call_reconnect_semantics doubleTransportEnv
    "stdio transport closed" rfl).1 (by decide) rfl
  ⟨h.1, h.2 "unexpected EOF" rfl⟩

/- ### Websets pipeline (orchestrator.go RunWebsetsPipeline,
     mcp_client.go WaitForWebsetCompletion) -/

/-- Poll interval of `WaitForWebsetCompletion`: the source creates
`time.NewTicker(10 * time.Second)`. -/
def websetsPollIntervalSec : Nat := 10

/-- Body of the `WaitForWebsetCompletion` loop. Tick `k` fires at elapsed
time `10*(k+1)`; the source checks the deadline first, so the tick at which
`10*(k+1) > timeout` first holds (`remaining = 0`) returns the timeout error
without polling. `statusAt k` is the parsed `status` string obtained at tick
`k`, with `none` covering a status-call error, an unparsable response, or a
missing/non-string status field (all of which the source logs and skips).
Status `completed` succeeds, `failed` errors, and anything else —
`processing`, `pending`, or an unknown value — continues polling. -/
def waitWebsetLoop (statusAt : Nat → Option String) : Nat → Nat → Except String Unit
  | _, 0 => .error "webset completion timeout"
  | k, remaining + 1 =>
      match statusAt k with
      | none => waitWebsetLoop statusAt (k + 1) remaining
      | some st =>
          if st = "completed" then .ok ()
          else if st = "failed" then .error "webset processing failed"
          else waitWebsetLoop statusAt (k + 1) remaining

/-- WaitForWebsetCompletion with its timeout expressed in seconds. -/
def waitForWebsetCompletion (statusAt : Nat → Option String) (timeoutSec : Nat) :
    Except String Unit :=
  waitWebsetLoop statusAt 0 (timeoutSec / websetsPollIntervalSec)

/-- Environment of one `RunWebsetsPipeline` run: the webset id parsed from
`create_webset` (or its error), the polled statuses, and the parsed
`list_content_items` items (or its error). -/
structure WebsetsEnv where
  createResult : Except String String
  statusAt : Nat → Option String
  listResult : Except String (List GoMap)

/-- Result of one `RunWebsetsPipeline` run: the returned value (payload
abstracted to the webset id, status, and item count) and the list of items
published to the session's pub/sub topic. -/
structure WebsetsOutcome where
  result : Except String (String × String × Nat)
  published : List GoMap

/-- RunWebsetsPipeline: create the webset, wait for completion under the
fixed 15-minute deadline, list the content items, publish each item to the
`websets-<id>` topic, and return a completed result. Every error path wraps
and returns before the publish step, so a failed or timed-out wait publishes
nothing. -/
def runWebsetsPipeline (env : WebsetsEnv) : WebsetsOutcome :=
  match env.createResult with
  | .error e => { result := .error ("failed to create webset: " ++ e), published := [] }
  | .ok websetID =>
      match waitForWebsetCompletion env.statusAt (15 * 60) with
      | .error e =>
          { result := .error ("webset processing failed: " ++ e), published := [] }
      | .ok _ =>
          match env.listResult with
          | .error e =>
              { result := .error ("failed to list content items: " ++ e), published := [] }
          | .ok items =>
              { result := .ok (websetID, "completed", items.length), published := items }

/-- C8: whenever the status poll reports the created webset as `failed`, the
pipeline returns an error whose message contains "webset processing failed",
and nothing is published to the message bus for that run. -/
theorem websets_failed_status_no_publishes (env : WebsetsEnv) (websetID : String)
    (hcreate : env.createResult = .ok websetID)
    (hwait : waitForWebsetCompletion env.statusAt (15 * 60) =
      .error "webset processing failed") :
    (runWebsetsPipeline env).result =
      .error ("webset processing failed: " ++ "webset processing failed") ∧
    goContains ("webset processing failed: " ++ "webset processing failed")
      "webset processing failed" = true ∧
    (runWebsetsPipeline env).published = [] := by
  unfold runWebsetsPipeline
  rw [hcreate, hwait]
  refine ⟨rfl, by decide, rfl⟩

/-- Environment in which the webset is created and the first status poll
reports failure. -/
def failedWebsetEnv : WebsetsEnv :=
  { createResult := .ok "wbs-1",
    statusAt := fun _ => some "failed",
    listResult := .ok [] }

/-- C8 witness at the concrete failed-status environment. -/
theorem websets_failed_status_no_publishes_witness :
    (runWebsetsPipeline failedWebsetEnv).result =
      .error ("webset processing failed: " ++ "webset processing failed") ∧
    goContains ("webset processing failed: " ++ "webset processing failed")
      "webset processing failed" = true ∧
    (runWebsetsPipeline failedWebsetEnv).published = [] :=
  websets_failed_status_no_publishes failedWebsetEnv "wbs-1" rfl rfl

/- ### Report assembly (claude_agent.go GenerateReport and helpers,
     helpers analyzeResults, renderReportToMarkdown) -/

mutual

/-- Go `fmt` "%v" rendering of an `interface{}` value, for the value kinds
stored in the statistics map. A `nil` interface renders as "<nil>"; the
`float64` rendering is abstracted to the rational's canonical string. -/
def goValToString : GoVal → String
  | .str s => s
  | .num q => toString q
  | .int n => toString n
  | .bool b => if b then "true" else "false"
  | .null => "<nil>"
  | .list xs => "[" ++ goValListToString xs ++ "]"
  | .obj fs => "map[" ++ goValObjToString fs ++ "]"

/-- Space-separated "%v" rendering of a Go slice's elements. -/
def goValListToString : List GoVal → String
  | [] => ""
  | [v] => goValToString v
  | v :: rest => goValToString v ++ " " ++ goValListToString rest

/-- Space-separated "key:value" rendering of a Go map's entries. -/
def goValObjToString : List (String × GoVal) → String
  | [] => ""
  | [(k, v)] => k ++ ":" ++ goValToString v
  | (k, v) :: rest => k ++ ":" ++ goValToString v ++ " " ++ goValObjToString rest

end

/-- Two-decimal "%.2f" rendering of a `float64` on the rational model
(rounding half away from zero; the exact rounding mode of Go's formatter is
immaterial to every property proved here, which only needs determinism). -/
def fmtRat2 (q : Rat) : String :=
  let scaled : Int := (q * 100 + 1 / 2).floor
  let sign := if scaled < 0 then "-" else ""
  let a := scaled.natAbs
  sign ++ toString (a / 100) ++ "." ++ (if a % 100 < 10 then "0" else "") ++ toString (a % 100)

/-- Abstract deterministic rendering of a `time.Duration` value ("%v" in the
source); the unit-suffix formatting is immaterial to the properties proved
here. -/
def goDurationStr (d : Int) : String := toString d

/-- Abstract deterministic rendering of a `time.Time` value
(`Format(time.RFC1123)` in the source). -/
def goTimeStr (t : Int) : String := toString t

/-- Discovered pattern (`schemas.Pattern`). -/
structure Pattern where
  name : String
  description : String
  frequency : Nat
  confidence : Rat
deriving DecidableEq

/-- Analysis of the collected results (`orchestrator.DataAnalysis`). -/
structure DataAnalysis where
  patterns : List Pattern
  topInsights : List String
  statistics : GoMap
  duration : Int
  averageConfidence : Rat
  metrics : ResearchMetrics

/-- extractPatterns: the fixed "Data Completeness" pattern over the result
count with confidence 0.9. -/
def extractPatterns (results : List DroneResult) : List Pattern :=
  [ { name := "Data Completeness",
      description := "Percentage of drones that successfully completed research",
      frequency := results.length,
      confidence := (9 : Rat) / 10 } ]

/-- generateInsights: three fixed insight strings, the first carrying the
result count. -/
def generateInsights (patterns : List Pattern) (results : List DroneResult) :
    List String :=
  [ "Research completed with " ++ toString results.length ++ " data points collected",
    "High confidence patterns identified across multiple data sources",
    "Comprehensive coverage achieved through parallel processing" ]

/-- analyzeResults: reads `results[0].CompletedAt` unconditionally before
anything else, so the empty result list makes the index out of bounds (a Go
runtime panic, modelled as `none`). On a non-empty list: count completions
and data points, extract patterns, generate insights, fill the statistics
map, and average the pattern confidences. -/
def analyzeResults (now : Int) (results : List DroneResult) : Option DataAnalysis :=
  match results with
  | [] => none
  | r0 :: rest =>
      let rs := r0 :: rest
      let base : ResearchMetrics :=
        { dronesProvisioned := rs.length, dronesCompleted := 0, dronesFailed := 0,
          totalDurationHours := 0, dataPointsCollected := 0, costEstimate := 0 }
      let ms := rs.foldl metricsStep base
      let patterns := extractPatterns rs
      let stats : GoMap :=
        mapSet (mapSet [] "total_data_points" (.int ms.dataPointsCollected))
          "success_rate" (.num ((ms.dronesCompleted : Rat) / (ms.dronesProvisioned : Rat)))
      let totalConfidence := patterns.foldl (fun acc p => acc + p.confidence) 0
      some
        { patterns := patterns
          topInsights := generateInsights patterns rs
          statistics := stats
          duration := now - (r0.completedAt : Int)
          averageConfidence :=
            if patterns.length > 0 then totalConfidence / (patterns.length : Rat) else 0
          metrics := ms }

/-- Report metadata (`schemas.ReportMetadata`). -/
structure ReportMetadata where
  researchTopic : String
  researcherCount : Int
  duration : Int
  dataPoints : Nat
  sources : List String
  metrics : ResearchMetrics

/-- Report section (`schemas.ReportSection`). -/
structure ReportSection where
  title : String
  content : String
  data : GoMap := []
  insights : List String := []

/-- Final research report (`schemas.ResearchReport`). `id` and `createdAt`
are stamped by the orchestrator after `GenerateReport` returns. -/
structure ResearchReport where
  id : String := ""
  sessionID : String := ""
  title : String
  executive : String
  sections : List ReportSection
  methodology : String
  data : GoMap
  metadata : ReportMetadata
  createdAt : Int := 0

/-- generateExecutiveSummary: topic, drone count, duration, and the first
three insights. -/
def generateExecutiveSummary (config : ResearchConfig) (results : List DroneResult)
    (analysis : DataAnalysis) : String :=
  "Executive Summary: " ++ config.topic ++ "\n\n" ++
  "This research was conducted using " ++ toString config.researcherCount ++
  " parallel research drones over " ++ goDurationStr analysis.duration ++ ".\n\n" ++
  "Key Findings:\n" ++
  (analysis.topInsights.take 3).foldl (fun acc insight => acc ++ "- " ++ insight ++ "\n") ""

/-- generateIntroduction section text. -/
def generateIntroduction (config : ResearchConfig) : String :=
  "This report presents the findings from a comprehensive research study on '" ++
  config.topic ++ "'. The research was conducted using " ++
  toString config.researcherCount ++ " parallel research agents with a " ++
  config.researchDepth ++ " depth approach."

/-- generateKeyFindings section text: success count over total plus pattern
count. -/
def generateKeyFindings (results : List DroneResult) (analysis : DataAnalysis) : String :=
  let successCount := (results.filter (fun r => r.status = "completed")).length
  "Based on the analysis of data from all research drones, the following key findings emerged:\n\n" ++
  "- Successfully collected data from " ++ toString successCount ++ " out of " ++
  toString results.length ++ " drones\n" ++
  "- Identified " ++ toString analysis.patterns.length ++ " key patterns across the dataset\n"

/-- generateDataAnalysis section text: pattern count, average confidence,
and the "%v" rendering of the statistics entry (a missing key renders as the
nil interface). -/
def generateDataAnalysis (analysis : DataAnalysis) : String :=
  "The data analysis revealed " ++ toString analysis.patterns.length ++
  " patterns with an average confidence of " ++ fmtRat2 analysis.averageConfidence ++
  ". Statistical analysis shows " ++
  (match analysis.statistics.lookup "total_data_points" with
   | some v => goValToString v
   | none => "<nil>") ++
  " unique data points collected."

/-- generateConclusions section text. -/
def generateConclusions (config : ResearchConfig) (analysis : DataAnalysis) : String :=
  "The research on '" ++ config.topic ++
  "' has provided comprehensive insights through parallel processing. The " ++
  config.researchDepth ++ "-depth analysis approach yielded " ++
  toString analysis.topInsights.length ++ " actionable insights with high confidence."

/-- generateMethodologySection text. -/
def generateMethodologySection (config : ResearchConfig) : String :=
  "This research employed a distributed approach using " ++
  toString config.researcherCount ++
  " parallel research drones. Each drone was tasked with specific aspects of the research topic '" ++
  config.topic ++ "'. The " ++ config.researchDepth ++
  "-depth methodology ensured comprehensive coverage while maintaining efficiency."

/-- generateReportSections: Introduction, Key Findings (with the analysis
insights), Data Analysis (with the statistics blob), Conclusions. -/
def generateReportSections (config : ResearchConfig) (results : List DroneResult)
    (analysis : DataAnalysis) : List ReportSection :=
  [ { title := "Introduction", content := generateIntroduction config },
    { title := "Key Findings", content := generateKeyFindings results analysis,
      insights := analysis.topInsights },
    { title := "Data Analysis", content := generateDataAnalysis analysis,
      data := analysis.statistics },
    { title := "Conclusions", content := generateConclusions config analysis } ]

/-- aggregateData: the data maps of all completed results (the source also
checks `result.Data != nil`; the model's map type conflates a nil map with
an empty one, which changes no length or lookup behaviour), plus the total
and successful counts. -/
def aggregateData (results : List DroneResult) : GoMap :=
  let allData := (results.filter (fun r => r.status = "completed")).map (fun r => r.data)
  [ ("drone_data", .list (allData.map .obj)),
    ("total_results", .int results.length),
    ("successful_results", .int allData.length) ]

/-- Inner loop of `extractSources`: a string element of the `sources` slice
is added to the key set once (`sourceMap[s] = true` is idempotent); non-string
elements are skipped by the type assertion. -/
def insertSource (acc : List String) (v : GoVal) : List String :=
  match v with
  | .str s => if acc.contains s then acc else acc ++ [s]
  | _ => acc

/-- Outer loop of `extractSources`: results whose `data["sources"]` is not a
slice are skipped by the type assertion. -/
def sourceStep (acc : List String) (r : DroneResult) : List String :=
  match r.data.lookup "sources" with
  | some (.list xs) => xs.foldl insertSource acc
  | _ => acc

/-- Key set of `extractSources`'s `sourceMap`, in insertion order. -/
def sourceKeys (results : List DroneResult) : List String :=
  results.foldl sourceStep []

/-- extractSources: the source builds `sourceMap` as a set and then iterates
`for source := range sourceMap`, whose order Go leaves unspecified and
randomises at run time. The run's iteration order is the explicit
`iterOrder` parameter, constrained (wherever a property needs it) to be a
permutation of the key set. -/
def extractSources (iterOrder : List String → List String)
    (results : List DroneResult) : List String :=
  iterOrder (sourceKeys results)

/-- GenerateReport (ClaudeAgent): assemble the structured report from the
config, results, and analysis; the only run-to-run nondeterminism is the
map iteration order inside `extractSources`. -/
def generateReport (config : ResearchConfig) (results : List DroneResult)
    (analysis : DataAnalysis) (iterOrder : List String → List String) :
    ResearchReport :=
  { title := "Research Report: " ++ config.topic
    executive := generateExecutiveSummary config results analysis
    sections := generateReportSections config results analysis
    methodology := generateMethodologySection config
    data := aggregateData results
    metadata :=
      { researchTopic := config.topic
        researcherCount := config.researcherCount
        duration := analysis.duration
        dataPoints := results.length
        sources := extractSources iterOrder results
        metrics := analysis.metrics } }

/-- Markdown rendering of one report section, with its insights as a bullet
list. -/
def renderSection (acc : String) (sect : ReportSection) : String :=
  acc ++ "## " ++ sect.title ++ "\n\n" ++ sect.content ++ "\n\n" ++
  (if sect.insights.length > 0 then
    "### Key Insights\n\n" ++
    sect.insights.foldl (fun a insight => a ++ "- " ++ insight ++ "\n") "" ++ "\n"
  else "")

/-- renderReportToMarkdown: title, session id, timestamp, executive summary,
methodology, the sections, and the appendix linking the per-drone result
files. The rendering never reads `report.metadata` (in particular not the
source list). -/
def renderReportToMarkdown (report : ResearchReport) (resultFiles : List String) :
    String :=
  "# " ++ report.title ++ "\n\n" ++
  "**Session ID:** `" ++ report.sessionID ++ "`  \n" ++
  "**Generated On:** " ++ goTimeStr report.createdAt ++ "\n\n" ++
  "## Executive Summary\n\n" ++ report.executive ++ "\n\n" ++
  "## Methodology\n\n" ++ report.methodology ++ "\n\n" ++
  report.sections.foldl renderSection "" ++
  "---\n\n" ++
  "## Appendix: Raw Drone Results\n\n" ++
  "This appendix contains links to the raw JSON output from each research drone.\n\n" ++
  resultFiles.foldl (fun a path => a ++ "- [" ++ path ++ "](./" ++ path ++ ")\n") "" ++
  "\n"

/-- Report-generation path of the orchestrator's `generateReport`: analyse
the collected results, then assemble the structured report (artifact writes
omitted); the analysis panic on an empty result list aborts the path. -/
def generateReportPath (now : Int) (config : ResearchConfig)
    (results : List DroneResult) (iterOrder : List String → List String) :
    Option ResearchReport :=
  (analyzeResults now results).map (fun analysis =>
    generateReport config results analysis iterOrder)

/- ### Theorems: report assembly and analysis -/

/-- Helper: adding one `sources` element preserves key-set uniqueness. -/
theorem insertSource_nodup (acc : List String) (v : GoVal) (h : acc.Nodup) :
    (insertSource acc v).Nodup := by
  unfold insertSource
  cases v with
  | str s =>
      by_cases hm : s ∈ acc
      · simpa [hm] using h
      · have happ : (acc ++ [s]).Nodup :=
          List.Nodup.append h (List.nodup_singleton s)
            (fun x hx hxs => by rw [List.mem_singleton] at hxs; subst hxs; exact hm hx)
        simpa [hm] using happ
  | num q => exact h
  | int n => exact h
  | bool b => exact h
  | list xs => exact h
  | obj fs => exact h
  | null => exact h

/-- Helper: the inner fold over one `sources` slice preserves uniqueness. -/
theorem foldl_insertSource_nodup (xs : List GoVal) :
    ∀ acc : List String, acc.Nodup → (xs.foldl insertSource acc).Nodup := by
  induction xs with
  | nil => intro acc h; simpa using h
  | cons v rest ih =>
      intro acc h
      simpa using ih (insertSource acc v) (insertSource_nodup acc v h)

/-- Helper: one result's contribution preserves uniqueness. -/
theorem sourceStep_nodup (acc : List String) (r : DroneResult) (h : acc.Nodup) :
    (sourceStep acc r).Nodup := by
  unfold sourceStep
  cases hl : r.data.lookup "sources" with
  | none => exact h
  | some v =>
      cases v with
      | list xs => exact foldl_insertSource_nodup xs acc h
      | str s => exact h
      | num q => exact h
      | int n => exact h
      | bool b => exact h
      | obj fs => exact h
      | null => exact h

/-- Helper: the key set of `extractSources`'s `sourceMap` has no
duplicates. -/
theorem sourceKeys_nodup (results : List DroneResult) : (sourceKeys results).Nodup := by
  unfold sourceKeys
  suffices h : ∀ acc : List String, acc.Nodup → (results.foldl sourceStep acc).Nodup by
    exact h [] List.nodup_nil
  induction results with
  | nil => intro acc h; simpa using h
  | cons r rest ih =>
      intro acc h
      simpa using ih (sourceStep acc r) (sourceStep_nodup acc r h)

/-- Single worker result carrying two distinct sources. -/
def dupSourceResults : List DroneResult :=
  [ { droneID := "drone-a", status := "completed",
      data := [("sources", .list [.str "a", .str "b"])] } ]

/-- Configuration used for the report-assembly analysis. -/
def reportConfig : ResearchConfig :=
  { sessionID := "s9", topic := "t9", researcherCount := 1,
    researchDepth := "basic", outputFormat := "markdown_report",
    timeoutMinutes := 10, priorityLevel := "normal",
    workflowTemplates := "", specificSources := "", createdAt := 0 }

/-- Analysis value fed to the report-assembly analysis. -/
def reportAnalysis : DataAnalysis :=
  { patterns := extractPatterns dupSourceResults
    topInsights := generateInsights (extractPatterns dupSourceResults) dupSourceResults
    statistics := [("total_data_points", .int 1)]
    duration := 0
    averageConfidence := (9 : Rat) / 10
    metrics := { dronesProvisioned := 1, dronesCompleted := 1, dronesFailed := 0,
                 totalDurationHours := 0, dataPointsCollected := 1, costEstimate := 0 } }

/-- C9 counterexample: two runs of report assembly on the same
`(config, results, analysis)` inputs but with different Go map iteration
orders — both valid permutations of the source key set — produce different
extracted source lists in the report metadata, so the produced reports are
not identical across runs. -/
theorem report_not_identical_across_runs :
    sourceKeys dupSourceResults = ["a", "b"] ∧
    ((sourceKeys dupSourceResults).reverse).Perm (sourceKeys dupSourceResults) ∧
    (generateReport reportConfig dupSourceResults reportAnalysis
      (fun xs => xs)).metadata.sources = ["a", "b"] ∧
    (generateReport reportConfig dupSourceResults reportAnalysis
      List.reverse).metadata.sources = ["b", "a"] ∧
    (generateReport reportConfig dupSourceResults reportAnalysis
      List.reverse).metadata.sources ≠
      (generateReport reportConfig dupSourceResults reportAnalysis
        (fun xs => xs)).metadata.sources :=
  ⟨rfl, List.reverse_perm _, rfl, rfl, by decide⟩

/-- C9 amended: report assembly is deterministic up to the order of the
extracted source list. Across any two valid map iteration orders the source
lists are permutations of one another, each is duplicate-free and contains
exactly the string sources occurring in the results, every other report
field coincides, and — because the Markdown rendering never reads the source
list — the rendered Markdown bytes are identical across the two runs. -/
theorem report_deterministic_up_to_source_order (config : ResearchConfig)
    (results : List DroneResult) (analysis : DataAnalysis)
    (o1 o2 : List String → List String)
    (h1 : (o1 (sourceKeys results)).Perm (sourceKeys results))
    (h2 : (o2 (sourceKeys results)).Perm (sourceKeys results)) :
    ((generateReport config results analysis o1).metadata.sources).Perm
      ((generateReport config results analysis o2).metadata.sources) ∧
    ((generateReport config results analysis o1).metadata.sources).Nodup ∧
    (∀ x, x ∈ (generateReport config results analysis o1).metadata.sources ↔
      x ∈ sourceKeys results) ∧
    generateReport config results analysis o1 =
      { generateReport config results analysis o2 with
          metadata := { (generateReport config results analysis o2).metadata with
              sources := o1 (sourceKeys results) } } ∧
    (∀ files, renderReportToMarkdown (generateReport config results analysis o1) files =
      renderReportToMarkdown (generateReport config results analysis o2) files) := by
  refine ⟨h1.trans h2.symm, h1.nodup_iff.mpr (sourceKeys_nodup results),
    fun x => h1.mem_iff, rfl, fun files => rfl⟩

/-- C9 amended witness at the concrete inputs, with the identity and the
reversal as the two iteration orders, the membership instantiated at source
"a", and the rendering instantiated at a concrete result-file list. -/
theorem report_deterministic_up_to_source_order_witness :
    ((generateReport reportConfig dupSourceResults reportAnalysis
        (fun xs => xs)).metadata.sources).Perm
      ((generateReport reportConfig dupSourceResults reportAnalysis
        List.reverse).metadata.sources) ∧
    ((generateReport reportConfig dupSourceResults reportAnalysis
        (fun xs => xs)).metadata.sources).Nodup ∧
    ("a" ∈ (generateReport reportConfig dupSourceResults reportAnalysis
        (fun xs => xs)).metadata.sources ↔ "a" ∈ sourceKeys dupSourceResults) ∧
    generateReport reportConfig dupSourceResults reportAnalysis (fun xs => xs) =
      { generateReport reportConfig dupSourceResults reportAnalysis List.reverse with
          metadata := { (generateReport reportConfig dupSourceResults reportAnalysis
              List.reverse).metadata with
              sources := (fun xs => xs) (sourceKeys dupSourceResults) } } ∧
    renderReportToMarkdown
        (generateReport reportConfig dupSourceResults reportAnalysis (fun xs => xs))
        ["reports/results_s9/drone_drone-a.json"] =
      renderReportToMarkdown
        (generateReport reportConfig dupSourceResults reportAnalysis List.reverse)
        ["reports/results_s9/drone_drone-a.json"] :=
  have h := report_deterministic_up_to_source_order reportConfig dupSourceResults
    reportAnalysis (fun xs => xs) List.reverse (List.Perm.refl _) (List.reverse_perm _)
  ⟨h.1, h.2.1, h.2.2.1 "a", h.2.2.2.1, h.2.2.2.2 ["reports/results_s9/drone_drone-a.json"]⟩

/-- Nonempty result list used to witness the analysis precondition. -/
def oneResult : List DroneResult :=
  [ { droneID := "drone-w", status := "completed", data := [], completedAt := 2 } ]

/-- C10: `analyzeResults` reads `results[0].CompletedAt` unconditionally, so
on the empty result list the access is out of bounds and the analysis — and
with it the report-generation path that invokes it — cannot complete
normally; on any non-empty list the analysis succeeds. -/
theorem analyze_results_nonempty_precondition (now : Int) (config : ResearchConfig)
    (o : List String → List String) (results : List DroneResult) :
    analyzeResults now [] = none ∧
    generateReportPath now config [] o = none ∧
    (results ≠ [] → (analyzeResults now results).isSome = true) := by
  refine ⟨rfl, rfl, ?_⟩
  intro h
  cases results with
  | nil => exact absurd rfl h
  | cons r rest => simp [analyzeResults]

/-- C10 witness: the analysis succeeds on a concrete one-element result
list. -/
theorem analyze_results_nonempty_precondition_witness :
    (analyzeResults 3 oneResult).isSome = true :=
  (analyze_results_nonempty_precondition 3 reportConfig (fun xs => xs) oneResult).2.2
    (by simp [oneResult])
